import Mathlib

/-!
Verification of the core of the `k8s-cli-agents` repository: the Session
Controller's `POST /api/sessions` handler (controller sources, `validation.ts`,
`sessionJwt.ts`) and the WebSocket Gateway's upgrade handler
(`ws-gateway/src/server.ts`), together with the shared Postgres-backed store
(`sessions` and `token_jti` tables).

Strings of the JavaScript source are modelled as lists of characters
(`Str`), machine timestamps as natural numbers counted in seconds, and the
database as in-memory lists of rows with the primary-key behaviour the
schema and the spec's store interface give (`INSERT` fails on a duplicate
key, `DELETE ... WHERE` removes every matching row).  External library
calls (the WHATWG URL parser, the `jose` JWT verifier) are taken as
oracle parameters of the embedded handlers, universally quantified in the
theorems.
-/

namespace KsCli

/-- Character-list model of a JavaScript string. -/
abbrev Str := List Char

/-- Conversion helper from Lean string literals into the model. -/
def str (s : String) : Str := s.toList

/-- Model of the JavaScript whitespace class as used by `String.prototype.trim`
restricted to the usual ASCII whitespace characters. -/
def isJsSpace (c : Char) : Bool :=
  c = ' ' || c = '\t' || c = '\n' || c = '\r'

/-- Model of `String.prototype.trim`: drop leading and trailing whitespace. -/
def jsTrim (s : Str) : Str :=
  ((s.dropWhile isJsSpace).reverse.dropWhile isJsSpace).reverse

/-- Model of `String.prototype.split(',')`. -/
def splitComma : Str → List Str
  | [] => [[]]
  | c :: cs =>
    match splitComma cs with
    | [] => [[]]
    | p :: ps => if c = ',' then [] :: p :: ps else (c :: p) :: ps

/-- Model of the JavaScript `a || b` idiom on an optional string, where both
`undefined`/`null` and the empty string are falsy. -/
def jsOrStr : Option Str → Str → Str
  | none, d => d
  | some s, d => if s = [] then d else s

/-- Truthiness of an optional string (`undefined`, `null` and `''` are falsy). -/
def jsTruthy : Option Str → Bool
  | none => false
  | some s => !(s.isEmpty)

/- ## Shared store (`sessions` and `token_jti` tables) -/

/-- Row of the `sessions` table. -/
structure SessionRow where
  session_id : Str
  owner_user_id : Str
  job_name : Str
  pod_name : Option Str := none
  pod_ip : Option Str := none
  expires_at : Nat := 0
deriving DecidableEq

/-- Row of the `token_jti` table. -/
structure JtiRow where
  jti : Str
  session_id : Str
  expires_at : Nat := 0
deriving DecidableEq

/-- The shared durable store seen by both Controller and Gateway. -/
structure Store where
  sessions : List SessionRow := []
  token_jti : List JtiRow := []
deriving DecidableEq

/-- Controller `INSERT INTO sessions ...`: fails (the promise rejects) on a
duplicate primary key `session_id`, per the schema and the store contract. -/
def insertSession (row : SessionRow) (st : Store) : Option Store :=
  if st.sessions.any (fun r => r.session_id == row.session_id) then none
  else some { st with sessions := st.sessions ++ [row] }

/-- Controller `UPDATE sessions SET pod_ip = $1, pod_name = $2 WHERE
session_id = $3`. -/
def updateSessionPod (sid : Str) (ip nm : Option Str) (st : Store) : Store :=
  { st with sessions := st.sessions.map (fun r =>
      if r.session_id == sid then { r with pod_ip := ip, pod_name := nm } else r) }

/-- Gateway `SELECT pod_ip FROM sessions WHERE session_id = $1` followed by
taking `rows[0]`: `none` when no row matched, otherwise the row's `pod_ip`. -/
def selectPodIp (sid : Str) (st : Store) : Option (Option Str) :=
  (st.sessions.find? (fun r => r.session_id == sid)).map (fun r => r.pod_ip)

/-- Gateway `SELECT session_id FROM token_jti WHERE jti = $1` reduced to the
only use the code makes of it, `rows.length !== 0`. -/
def jtiPresent (j : Str) (st : Store) : Bool :=
  st.token_jti.any (fun r => r.jti == j)

/-- Gateway `DELETE FROM token_jti WHERE jti = $1`: removes every matching row. -/
def deleteJti (j : Str) (st : Store) : Store :=
  { st with token_jti := st.token_jti.filter (fun r => !(r.jti == j)) }

/-- Controller `INSERT INTO token_jti ...`: fails on a duplicate primary key. -/
def insertJti (row : JtiRow) (st : Store) : Option Store :=
  if st.token_jti.any (fun r => r.jti == row.jti) then none
  else some { st with token_jti := st.token_jti ++ [row] }

/- ## Gateway upgrade handler (`ws-gateway/src/server.ts`, `app.on('upgrade')`) -/

/-- Payload of a verified session JWT as produced by `createSessionJWT` and
returned by `verifySessionJWT` (`jose` payload with the custom `sid` claim). -/
structure Claims where
  sub : Str
  sid : Str
  aud : Str
  jti : Str
  iat : Nat := 0
  exp : Nat := 0
deriving DecidableEq

/-- The parts of an incoming upgrade request the handler reads. -/
structure WsRequest where
  pathname : Str
  sec_websocket_protocol : Option Str := none
  query_token : Option Str := none
deriving DecidableEq

/-- Model of a character matched by `.` in a JavaScript regex without the `s`
flag (newline characters are excluded). -/
def jsDotChar (c : Char) : Bool := !(c = '\n' || c = '\r')

/-- Upgrade-path match `url.pathname.match(/^\/ws\/(.+)$/)`: any non-empty
remainder after `/ws/` is accepted as the `sessionId`. -/
def matchWsPath (p : Str) : Option Str :=
  if (str "/ws/").isPrefixOf p then
    let r := p.drop 4
    if r ≠ [] ∧ r.all jsDotChar then some r else none
  else none

/-- Character class `[a-f0-9-]` with the `i` flag of the page-route regex. -/
def hexDashChar (c : Char) : Bool :=
  ('a' ≤ c && c ≤ 'f') || ('A' ≤ c && c ≤ 'F') || ('0' ≤ c && c ≤ '9') || c = '-'

/-- Shape `[a-f0-9-]{36}` (case-insensitive), the page route's capture. -/
def isUuidShaped (r : Str) : Bool := r.length == 36 && r.all hexDashChar

/-- Page-route match `url.pathname.match(/^\/ws\/([a-f0-9-]{36})$/i)` used by
the non-upgrade `GET` handler that serves the terminal page. -/
def pageRouteMatch (p : Str) : Option Str :=
  if (str "/ws/").isPrefixOf p ∧ isUuidShaped (p.drop 4) then some (p.drop 4)
  else none

/-- The header scan `proto.split(',').map(s=>s.trim()).find(s=>s.startsWith('bearer,'))`. -/
def findBearerPiece (proto : Str) : Option Str :=
  ((splitComma proto).map jsTrim).find? (fun s => (str "bearer,").isPrefixOf s)

/-- Token extraction of the upgrade handler:
`fromProto?.slice(7) || url.searchParams.get('token') || ''`. -/
def extractToken (proto : Option Str) (q : Option Str) : Str :=
  jsOrStr ((proto.bind findBearerPiece).map (fun s => s.drop 7)) (jsOrStr q [])

/-- Result of one upgrade attempt: the socket is either destroyed or proxied
to the given upstream target. -/
inductive UpgradeOutcome
  | destroyed
  | proxied (target : Str)
deriving DecidableEq

/-- Upstream target `http://<podIp>:7681/`. -/
def proxyTarget (ip : Str) : Str := str "http://" ++ ip ++ str ":7681/"

/-- Steps 5 to 7 of the upgrade handler, entered once the session binding
check has passed: jti presence check, jti delete, pod-ip lookup, proxy.
The `!session.pod_ip` test of the source also rejects an empty-string ip. -/
def attachConsumeAndRoute (claims : Claims) (sessionId : Str) (st : Store) :
    UpgradeOutcome × Store :=
  if !(jtiPresent claims.jti st) then (.destroyed, st)
  else
    let st1 := deleteJti claims.jti st
    match selectPodIp sessionId st1 with
    | some (some ip) =>
      if ip = [] then (.destroyed, st1) else (.proxied (proxyTarget ip), st1)
    | _ => (.destroyed, st1)

/-- The whole upgrade handler of `ws-gateway/src/server.ts`.  `verify` is the
oracle for `verifySessionJWT(token, 'ws', jwksUrl)`: `none` models a rejected
promise (caught, socket destroyed), `some claims` a verified payload. -/
def gatewayUpgrade (verify : Str → Option Claims) (req : WsRequest) (st : Store) :
    UpgradeOutcome × Store :=
  match matchWsPath req.pathname with
  | none => (.destroyed, st)
  | some sessionId =>
    let token := extractToken req.sec_websocket_protocol req.query_token
    if token = [] then (.destroyed, st)
    else
      match verify token with
      | none => (.destroyed, st)
      | some claims =>
        if claims.sid ≠ sessionId then (.destroyed, st)
        else attachConsumeAndRoute claims sessionId st

/- ## Controller input validation (`controller/src/validation.ts`) -/

/-- Result of a `validation.ts` check: `{valid: true}` or
`{valid: false, error}`. -/
inductive ValidationResult
  | ok
  | invalid (error : Str)
deriving DecidableEq

/-- Hostname prefixes of the regex `/^172\.(1[6-9]|2[0-9]|3[0-1])\./`. -/
def ranges172 : List Str :=
  [str "172.16.", str "172.17.", str "172.18.", str "172.19.",
   str "172.20.", str "172.21.", str "172.22.", str "172.23.",
   str "172.24.", str "172.25.", str "172.26.", str "172.27.",
   str "172.28.", str "172.29.", str "172.30.", str "172.31."]

/-- The `PRIVATE_IP_RANGES` test of `validation.ts`: private, loopback and
link-local hostname patterns, matched against the URL's hostname string. -/
def isPrivateIP (hostname : Str) : Bool :=
  (str "10.").isPrefixOf hostname ||
  ranges172.any (fun p => p.isPrefixOf hostname) ||
  (str "192.168.").isPrefixOf hostname ||
  (str "127.").isPrefixOf hostname ||
  (str "169.254.").isPrefixOf hostname ||
  hostname == str "::1" ||
  (str "fe80:").isPrefixOf hostname ||
  (str "fc00:").isPrefixOf hostname

/-- The fields of a parsed WHATWG URL that `validateCodeUrl` inspects. -/
structure UrlParts where
  protocol : Str
  hostname : Str
deriving DecidableEq

/-- Domain allowlist test with leading `*.` wildcard support. -/
def domainAllowed (allowed : List Str) (hostname : Str) : Bool :=
  allowed.any (fun d =>
    if (str "*.").isPrefixOf d then
      let base := d.drop 2
      hostname == base || (('.' :: base).isSuffixOf hostname)
    else hostname == d)

/-- The `validateCodeUrl` function of `validation.ts`.  `parseUrl` is the
oracle for the WHATWG `new URL(...)` constructor (`none` models a thrown
parse error); `none` as `code_url` models a missing or non-string field. -/
def validateCodeUrl (parseUrl : Str → Option UrlParts) (allowed : List Str)
    (code_url : Option Str) : ValidationResult :=
  match code_url with
  | none => .invalid (str "code_url must be a string")
  | some u =>
    if u.length > 2048 then .invalid (str "code_url exceeds maximum length")
    else
      match parseUrl u with
      | none => .invalid (str "Invalid URL format")
      | some url =>
        if !(url.protocol == str "http:" || url.protocol == str "https:") then
          .invalid (str "Only HTTP and HTTPS protocols are allowed")
        else if isPrivateIP url.hostname then
          .invalid (str "Private IP addresses are not allowed")
        else if !(domainAllowed allowed url.hostname) then
          .invalid (str "Domain is not in the allowlist")
        else .ok

/-- The `dangerousPatterns` list of `validateCommand`: command substitution,
backticks, variable substitution and process substitution. -/
def dangerousPatterns : List Str :=
  [str "$(", str "`", str "$\x7b", str "<(", str ">("]

/-- Executable substring test (model of `RegExp.prototype.test` for a literal
pattern): `pat` occurs as a contiguous run inside `s`. -/
def hasInfix (pat : Str) : Str → Bool
  | [] => pat.isPrefixOf []
  | c :: cs => pat.isPrefixOf (c :: cs) || hasInfix pat cs

/-- True iff the command contains one of the dangerous shell patterns. -/
def containsDangerous (command : Str) : Bool :=
  dangerousPatterns.any (fun p => hasInfix p command)

/-- The `validateCommand` function of `validation.ts`. -/
def validateCommand (command : Str) : ValidationResult :=
  if command = [] then .invalid (str "command cannot be empty")
  else if command.length > 1000 then .invalid (str "command exceeds maximum length")
  else if containsDangerous command then
    .invalid (str "command contains potentially dangerous patterns")
  else .ok

/-- Character class `[a-fA-F0-9]` of the checksum regex. -/
def hexChar (c : Char) : Bool :=
  ('a' ≤ c && c ≤ 'f') || ('A' ≤ c && c ≤ 'F') || ('0' ≤ c && c ≤ '9')

/-- The `validateChecksum` function of `validation.ts`: a falsy checksum
(absent or empty) is valid, otherwise exactly 64 hex characters. -/
def validateChecksum (checksum : Option Str) : ValidationResult :=
  if !(jsTruthy checksum) then .ok
  else
    let c := checksum.getD []
    if c.length == 64 && c.all hexChar then .ok
    else .invalid (str "Invalid SHA-256 checksum format")

/-- The `validatePrompt` function of `validation.ts`: a falsy prompt is valid,
otherwise at most 10000 characters. -/
def validatePrompt (prompt : Option Str) : ValidationResult :=
  if !(jsTruthy prompt) then .ok
  else if (prompt.getD []).length > 10000 then
    .invalid (str "prompt exceeds maximum length")
  else .ok

/- ## Controller `POST /api/sessions` (`controller/src/server.ts`) -/

/-- The body fields of a `POST /api/sessions` request; `none` models an
absent field. -/
structure CreateReq where
  code_url : Option Str := none
  code_checksum_sha256 : Option Str := none
  command : Option Str := none
  prompt : Option Str := none

/-- Default launch command `'npm run build && node dist/index.js run'`. -/
def defaultCommand : Str := str "npm run build && node dist/index.js run"

/-- A pod as observed through `listNamespacedPod`: `metadata?.name` and
`status?.podIP`. -/
structure Pod where
  name : Option Str := none
  podIP : Option Str := none
deriving DecidableEq

/-- The predicate the polling loop applies:
`pods.body.items.find(p => p.status?.podIP)` — the first pod, in the order
the list call returned, whose `podIP` is truthy (present and non-empty). -/
def findPodWithIp (pods : List Pod) : Option Pod :=
  pods.find? (fun p => jsTruthy p.podIP)

/-- The polling loop over successive observations (one `listNamespacedPod`
call per iteration, bounded by `maxAttempts`): returns the chosen pod and
the number of failed iterations before it (each failed iteration sleeps one
second before the next observation). -/
def pollForPod : List (List Pod) → Nat → Option (Pod × Nat)
  | _, 0 => none
  | [], _ + 1 => none
  | ps :: rest, n + 1 =>
    match findPodWithIp ps with
    | some p => some (p, 0)
    | none =>
      match pollForPod rest n with
      | some (p, k) => some (p, k + 1)
      | none => none

/-- The parts of a submitted Kubernetes Job the claims are about. -/
structure Job where
  name : Str
  sessionLabel : Str
  code_url : Str
  command : Str
deriving DecidableEq

/-- The world a Controller replica acts on: the shared store plus the set of
jobs submitted to the orchestrator. -/
structure World where
  store : Store := {}
  jobs : List Job := []
deriving DecidableEq

/-- Environment of one `createSession` run: the URL-parser and id-generator
oracles, the caller identity, the sequence of pod observations the
orchestrator will report, the `SESSION_EXPIRY_SECONDS` configuration and the
handler-entry clock value (`Date.now()` at the top of the handler, in
seconds). -/
structure CsEnv where
  parseUrl : Str → Option UrlParts
  allowedDomains : List Str
  clientId : Str
  freshSessionId : Str
  freshJti : Str
  createJobOk : Bool := true
  polls : List (List Pod) := []
  expSec : Nat := 600
  t0 : Nat := 0

/-- Response of `POST /api/sessions`: HTTP 400 with a validation reason,
HTTP 500, or HTTP 200 with the session id, the attach path and the minted
token (represented by its signed claims). -/
inductive CsResult
  | badRequest (error : Str)
  | serverError (error : Str)
  | ok (sessionId : Str) (wsUrl : Str) (token : Claims)
deriving DecidableEq

/-- The `POST /api/sessions` handler: input validation, job submission,
session insert, pod-ip polling (30 attempts, one second apart), conditional
pod update, JWT mint (`createSessionJWT` computes `exp = now + expSec` at
mint time, i.e. after polling) and `token_jti` insert.  A thrown store or
orchestrator error reaches the global error handler and becomes a 500. -/
def createSession (env : CsEnv) (req : CreateReq) (w : World) : CsResult × World :=
  match validateCodeUrl env.parseUrl env.allowedDomains req.code_url with
  | .invalid e => (.badRequest e, w)
  | .ok =>
  match validateChecksum req.code_checksum_sha256 with
  | .invalid e => (.badRequest e, w)
  | .ok =>
  match validateCommand (jsOrStr req.command defaultCommand) with
  | .invalid e => (.badRequest e, w)
  | .ok =>
  match validatePrompt req.prompt with
  | .invalid e => (.badRequest e, w)
  | .ok =>
    let sessionId := env.freshSessionId
    let jobName := str "wscli-" ++ sessionId.take 13
    let sessionExpires := env.t0 + env.expSec
    if !env.createJobOk then (.serverError (str "Internal server error"), w)
    else
      let w1 := { w with jobs := w.jobs ++
        [{ name := jobName, sessionLabel := sessionId,
           code_url := (req.code_url.getD []),
           command := jsOrStr req.command defaultCommand }] }
      match insertSession
          { session_id := sessionId, owner_user_id := env.clientId,
            job_name := jobName, expires_at := sessionExpires } w1.store with
      | none => (.serverError (str "Internal server error"), w1)
      | some st1 =>
        let w2 := { w1 with store := st1 }
        match pollForPod env.polls 30 with
        | none => (.serverError (str "Failed to start session. Please try again."), w2)
        | some (pod, k) =>
          let w3 := { w2 with store := updateSessionPod sessionId pod.podIP pod.name w2.store }
          let tMint := env.t0 + k
          let claims : Claims :=
            { sub := env.clientId, sid := sessionId, aud := str "ws",
              jti := env.freshJti, iat := tMint, exp := tMint + env.expSec }
          match insertJti
              { jti := env.freshJti, session_id := sessionId,
                expires_at := sessionExpires } w3.store with
          | none => (.serverError (str "Internal server error"), w3)
          | some st4 =>
            (.ok sessionId (str "/ws/" ++ sessionId) claims, { w3 with store := st4 })

/- ## System steps (for store-wide invariants) -/

/-- One request handled by the core: a Controller `createSession` or a
Gateway upgrade. -/
inductive SysStep
  | create (env : CsEnv) (req : CreateReq)
  | attach (verify : Str → Option Claims) (req : WsRequest)

/-- Effect of one request on the world. -/
def applyStep : SysStep → World → World
  | .create env req, w => (createSession env req w).2
  | .attach v r, w => { w with store := (gatewayUpgrade v r w.store).2 }

/-- Effect of a sequence of requests, first request first. -/
def applySteps (steps : List SysStep) (w : World) : World :=
  steps.foldl (fun w s => applyStep s w) w

/- ## Sequential runs of the Gateway and the consume race -/

/-- True iff the outcome is a completed proxied attach. -/
def isProxied : UpgradeOutcome → Bool
  | .proxied _ => true
  | .destroyed => false

/-- The jti named by the token a request presents, as the Gateway would
resolve it: extract, then verify. -/
def reqJtiOf (verify : Str → Option Claims) (r : WsRequest) : Option Str :=
  (verify (extractToken r.sec_websocket_protocol r.query_token)).map (fun c => c.jti)

/-- Number of successful attaches consuming jti `j` in a sequential run of
upgrade attempts (each handler runs to completion before the next starts). -/
def countAttachesUsing (verify : Str → Option Claims) (j : Str) :
    List WsRequest → Store → Nat
  | [], _ => 0
  | r :: rs, st =>
    let out := gatewayUpgrade verify r st
    (if isProxied out.1 = true ∧ reqJtiOf verify r = some j then 1 else 0)
      + countAttachesUsing verify j rs out.2

/-- Program counter of one in-flight consume attempt of the Gateway: the
`SELECT` and the `DELETE` are separate awaited queries, so another handler
can run between them. -/
inductive ConsumePhase
  | start
  | selected (found : Bool)
  | done (found : Bool)
deriving DecidableEq

/-- One step of the Gateway's two-query consume of jti `j` at the given
program counter: the `SELECT` observes presence, the `DELETE` removes the
row unconditionally. -/
def consumeStep (j : Str) : ConsumePhase → Store → ConsumePhase × Store
  | .start, st => (.selected (jtiPresent j st), st)
  | .selected f, st => (.done f, deleteJti j st)
  | .done f, st => (.done f, st)

/-- Two concurrent consume attempts for the same jti over the shared store. -/
structure RacePair where
  store : Store
  a : ConsumePhase := .start
  b : ConsumePhase := .start
deriving DecidableEq

/-- Scheduler step: `true` advances attempt `a`, `false` advances attempt `b`. -/
def raceStep (j : Str) (rp : RacePair) (pickA : Bool) : RacePair :=
  if pickA then
    let s := consumeStep j rp.a rp.store
    { rp with a := s.1, store := s.2 }
  else
    let s := consumeStep j rp.b rp.store
    { rp with b := s.1, store := s.2 }

/-- Run a schedule of interleaved steps of the two consume attempts. -/
def raceRun (j : Str) (sched : List Bool) (rp : RacePair) : RacePair :=
  sched.foldl (raceStep j) rp

/-- Modelled from the spec: `consumeTokenId(tokenId) → boolean` of the shared
store interface — an atomic conditional delete that returns true iff a row
was removed.  The repository's Gateway does not call such a primitive; this
definition exists to compare the spec's required consume with the Gateway's
two-query consume. -/
def consumeTokenId (j : Str) (st : Store) : Bool × Store :=
  (jtiPresent j st, deleteJti j st)

/- ## Helper lemmas -/

theorem splitComma_no_comma (s : Str) : ∀ piece ∈ splitComma s, ',' ∉ piece := by
  induction s with
  | nil => intro piece hp; simp [splitComma] at hp; simp [hp]
  | cons c cs ih =>
    intro piece hp
    simp only [splitComma] at hp
    rcases hsp : splitComma cs with - | ⟨p, ps⟩
    · rw [hsp] at hp; simp at hp; simp [hp]
    · rw [hsp] at hp
      by_cases hc : c = ','
      · simp [hc] at hp
        rcases hp with h | h | h
        · simp [h]
        · exact h ▸ ih p (hsp ▸ List.mem_cons_self p ps)
        · exact ih piece (hsp ▸ List.mem_cons_of_mem p h)
      · simp [hc] at hp
        rcases hp with h | h
        · subst h
          intro hmem
          rcases List.mem_cons.mp hmem with h' | h'
          · exact hc h'.symm
          · exact ih p (hsp ▸ List.mem_cons_self p ps) h'
        · exact ih piece (hsp ▸ List.mem_cons_of_mem p h)

theorem mem_of_mem_jsTrim {x : Char} {s : Str} (h : x ∈ jsTrim s) : x ∈ s := by
  unfold jsTrim at h
  rw [List.mem_reverse] at h
  have h1 := (List.dropWhile_sublist isJsSpace).subset h
  rw [List.mem_reverse] at h1
  exact (List.dropWhile_sublist isJsSpace).subset h1

theorem findBearerPiece_eq_none (proto : Str) : findBearerPiece proto = none := by
  unfold findBearerPiece
  rw [List.find?_eq_none]
  intro piece hmem
  rcases List.mem_map.mp hmem with ⟨raw, hraw, htrim⟩
  intro hpre
  have hcomma : ',' ∈ piece := by
    rcases List.isPrefixOf_iff_prefix.mp hpre with ⟨t, ht⟩
    rw [← ht]
    refine List.mem_append_left t ?_
    decide
  exact splitComma_no_comma proto raw hraw (mem_of_mem_jsTrim (htrim ▸ hcomma))

theorem extractToken_header_dead (proto : Option Str) (q : Option Str) :
    extractToken proto q = jsOrStr q [] := by
  unfold extractToken
  cases proto with
  | none => rfl
  | some p => simp [findBearerPiece_eq_none, jsOrStr]

theorem attach_sessions (c : Claims) (sid : Str) (st : Store) :
    ((attachConsumeAndRoute c sid st).2).sessions = st.sessions := by
  unfold attachConsumeAndRoute
  dsimp only
  split
  · rfl
  · split <;> first | rfl | (split <;> rfl)

theorem gatewayUpgrade_sessions (v : Str → Option Claims) (r : WsRequest) (st : Store) :
    ((gatewayUpgrade v r st).2).sessions = st.sessions := by
  unfold gatewayUpgrade
  dsimp only
  split
  · rfl
  · split
    · rfl
    · split
      · rfl
      · split
        · rfl
        · exact attach_sessions ..

theorem mem_tokenJti_attach {row : JtiRow} (c : Claims) (sid : Str) (st : Store)
    (h : row ∈ ((attachConsumeAndRoute c sid st).2).token_jti) : row ∈ st.token_jti := by
  unfold attachConsumeAndRoute at h
  dsimp only at h
  split at h
  · exact h
  · have hdel : ∀ x ∈ (deleteJti c.jti st).token_jti, x ∈ st.token_jti := by
      intro x hx
      exact (List.mem_filter.mp hx).1
    split at h <;> first
      | exact hdel row h
      | (split at h <;> exact hdel row h)

theorem mem_tokenJti_upgrade {row : JtiRow} (v : Str → Option Claims) (r : WsRequest)
    (st : Store) (h : row ∈ ((gatewayUpgrade v r st).2).token_jti) : row ∈ st.token_jti := by
  unfold gatewayUpgrade at h
  dsimp only at h
  split at h
  · exact h
  · split at h
    · exact h
    · split at h
      · exact h
      · split at h
        · exact h
        · exact mem_tokenJti_attach _ _ _ h

theorem jtiPresent_deleteJti (j : Str) (st : Store) :
    jtiPresent j (deleteJti j st) = false := by
  unfold jtiPresent deleteJti
  simp only [List.any_eq_false]
  intro r hr
  have := (List.mem_filter.mp hr).2
  simpa using this

theorem jtiAbsent_preserved (v : Str → Option Claims) (r : WsRequest) (st : Store)
    (j : Str) (h : jtiPresent j st = false) :
    jtiPresent j ((gatewayUpgrade v r st).2) = false := by
  unfold jtiPresent at h ⊢
  simp only [List.any_eq_false] at h ⊢
  intro row hrow
  exact h row (mem_tokenJti_upgrade v r st hrow)

theorem attach_cases (c : Claims) (sid : Str) (st : Store) :
    (attachConsumeAndRoute c sid st = (.destroyed, st) ∧ jtiPresent c.jti st = false)
    ∨ ((attachConsumeAndRoute c sid st).2 = deleteJti c.jti st ∧ jtiPresent c.jti st = true) := by
  unfold attachConsumeAndRoute
  dsimp only
  split
  next hc =>
    left
    exact ⟨rfl, by simpa using hc⟩
  next hc =>
    right
    refine ⟨?_, by simpa using hc⟩
    split
    · split <;> rfl
    · rfl

theorem upgrade_proxied_jti {v : Str → Option Claims} {r : WsRequest} {st : Store}
    {out : UpgradeOutcome} {st' : Store} (heq : gatewayUpgrade v r st = (out, st'))
    (hout : isProxied out = true) {j : Str} (hj : reqJtiOf v r = some j) :
    jtiPresent j st = true ∧ jtiPresent j st' = false := by
  unfold gatewayUpgrade at heq
  dsimp only at heq
  split at heq
  · cases heq; simp [isProxied] at hout
  next sid hmatch =>
    split at heq
    · cases heq; simp [isProxied] at hout
    · split at heq
      · cases heq; simp [isProxied] at hout
      next claims hv =>
        split at heq
        · cases heq; simp [isProxied] at hout
        next hsid =>
          have hj' : j = claims.jti := by
            unfold reqJtiOf at hj
            rw [hv] at hj
            simpa using hj.symm
          subst hj'
          rcases attach_cases claims sid st with ⟨hca, _⟩ | ⟨hst', htrue⟩
          · rw [hca] at heq
            cases heq
            simp [isProxied] at hout
          · rw [heq] at hst'
            simp only at hst'
            rw [hst']
            exact ⟨htrue, jtiPresent_deleteJti _ _⟩

theorem countAttachesUsing_zero (v : Str → Option Claims) (j : Str) (rs : List WsRequest)
    (st : Store) (h : jtiPresent j st = false) : countAttachesUsing v j rs st = 0 := by
  induction rs generalizing st with
  | nil => rfl
  | cons r rs ih =>
    unfold countAttachesUsing
    dsimp only
    split
    next hcond =>
      exfalso
      obtain ⟨hp, hj⟩ := hcond
      have : jtiPresent j st = true := (upgrade_proxied_jti rfl hp hj).1
      rw [h] at this
      exact Bool.false_ne_true this
    next =>
      rw [Nat.zero_add]
      exact ih _ (jtiAbsent_preserved v r st j h)

theorem insertSession_eq {row : SessionRow} {st st1 : Store}
    (h : insertSession row st = some st1) :
    st1 = { st with sessions := st.sessions ++ [row] } ∧
    ∀ r ∈ st.sessions, r.session_id ≠ row.session_id := by
  unfold insertSession at h
  split at h
  · cases h
  next hdup =>
    refine ⟨by cases h; rfl, ?_⟩
    intro r hr hid
    exact hdup (List.any_eq_true.mpr ⟨r, hr, by simp [hid]⟩)

theorem insertJti_eq {row : JtiRow} {st st1 : Store}
    (h : insertJti row st = some st1) :
    st1 = { st with token_jti := st.token_jti ++ [row] } := by
  unfold insertJti at h
  split at h
  · cases h
  · cases h; rfl

theorem jsTruthy_some {o : Option Str} (h : jsTruthy o = true) :
    ∃ ip, o = some ip ∧ ip ≠ [] := by
  cases o with
  | none => simp [jsTruthy] at h
  | some s => exact ⟨s, rfl, by simpa [jsTruthy, List.isEmpty_iff] using h⟩

theorem pollForPod_truthy : ∀ (polls : List (List Pod)) (n : Nat) (p : Pod) (k : Nat),
    pollForPod polls n = some (p, k) → jsTruthy p.podIP = true := by
  intro polls
  induction polls with
  | nil =>
    intro n p k h
    cases n <;> simp [pollForPod] at h
  | cons ps rest ih =>
    intro n p k h
    cases n with
    | zero => simp [pollForPod] at h
    | succ m =>
      unfold pollForPod at h
      cases hfind : findPodWithIp ps with
      | some q =>
        rw [hfind] at h
        cases h
        unfold findPodWithIp at hfind
        simpa using List.find?_some hfind
      | none =>
        rw [hfind] at h
        cases hrec : pollForPod rest m with
        | some pk =>
          rw [hrec] at h
          cases pk with
          | mk q k' =>
            simp only [Option.some.injEq, Prod.mk.injEq] at h
            obtain ⟨h1, h2⟩ := h
            exact h1 ▸ ih m q k' hrec
        | none =>
          rw [hrec] at h
          cases h

/- ## Claim theorems -/

/-- C1: for any verifier, any jti `j` and any store, in a sequential run of
WebSocket upgrade attempts (each handler completing before the next starts)
at most one attempt that presents a token carrying jti `j` completes as a
proxied attach; every subsequent attempt presenting the same token is
destroyed, because the `token_jti` row has been deleted by the first
successful attach.  (The concurrent, interleaved case is the subject of the
consume-race theorem.) -/
theorem C1_token_single_use (v : Str → Option Claims) (j : Str)
    (rs : List WsRequest) (st : Store) : countAttachesUsing v j rs st ≤ 1 := by
  induction rs generalizing st with
  | nil => exact Nat.zero_le 1
  | cons r rs ih =>
    unfold countAttachesUsing
    dsimp only
    split
    next hcond =>
      obtain ⟨hp, hj⟩ := hcond
      have habs : jtiPresent j ((gatewayUpgrade v r st).2) = false :=
        (upgrade_proxied_jti rfl hp hj).2
      rw [countAttachesUsing_zero v j rs ((gatewayUpgrade v r st).2) habs]
    next =>
      rw [Nat.zero_add]
      exact ih _

/-- Store with exactly one `token_jti` row, used by the consume-race theorem. -/
def raceStore : Store := { token_jti := [{ jti := str "j", session_id := str "s" }] }

/-- C2: the Gateway's consume of a jti is a `SELECT` followed by a separate
unconditional `DELETE` (server.ts lines 223 and 229), with an `await` between
them.  Interleaving two attempts for the same jti as
select-A, select-B, delete-A, delete-B makes both attempts observe the row as
present, so both proceed — two concurrent attaches presenting the same token
can both succeed.  By contrast the spec's `consumeTokenId` (an atomic
conditional delete, modelled here as `consumeTokenId`) returns true at most
once for the same jti however two calls are ordered. -/
theorem C2_consume_race :
    ((raceRun (str "j") [true, false, true, false] { store := raceStore }).a = .done true
      ∧ (raceRun (str "j") [true, false, true, false] { store := raceStore }).b = .done true)
    ∧ ∀ (j : Str) (st : Store),
        ¬(((consumeTokenId j st).1 = true) ∧
          ((consumeTokenId j (consumeTokenId j st).2).1 = true)) := by
  refine ⟨by decide, ?_⟩
  intro j st ⟨_, h2⟩
  have : (consumeTokenId j (consumeTokenId j st).2).1 = false := by
    show jtiPresent j (deleteJti j st) = false
    exact jtiPresent_deleteJti j st
  rw [this] at h2
  exact Bool.false_ne_true h2

/-- C4: a WebSocket upgrade presenting a token that verifies to claims whose
`sid` differs from the `sessionId` in the URL is destroyed before the consume
step, and the store — in particular the token's `token_jti` row — is left
unchanged. -/
theorem C4_session_mismatch_preserves_token (v : Str → Option Claims)
    (req : WsRequest) (st : Store) (r : Str) (claims : Claims)
    (hpath : matchWsPath req.pathname = some r)
    (hver : v (extractToken req.sec_websocket_protocol req.query_token) = some claims)
    (hmis : claims.sid ≠ r) :
    gatewayUpgrade v req st = (.destroyed, st) := by
  unfold gatewayUpgrade
  dsimp only
  rw [hpath]
  by_cases ht : extractToken req.sec_websocket_protocol req.query_token = []
  · simp [ht]
  · simp [ht, hver, hmis]

/-- Verifier fixture for the session-mismatch witness: one valid token
`TA` bound to session `a`. -/
def c4v : Str → Option Claims := fun t =>
  if t == str "TA" then
    some { sub := str "u", sid := str "a", aud := str "ws", jti := str "ja" }
  else none

/-- Request presenting the session-`a` token on the session-`b` path. -/
def c4req : WsRequest := { pathname := str "/ws/b", query_token := some (str "TA") }

/-- Store holding the token's jti row and both sessions. -/
def c4st : Store :=
  { sessions := [{ session_id := str "a", owner_user_id := str "u",
                   job_name := str "wa", pod_ip := some (str "10.0.0.5") },
                 { session_id := str "b", owner_user_id := str "u",
                   job_name := str "wb", pod_ip := some (str "10.0.0.6") }],
    token_jti := [{ jti := str "ja", session_id := str "a" }] }

/-- Witness for C4: the concrete mismatched attach is destroyed with the
store unchanged. -/
theorem C4_witness : gatewayUpgrade c4v c4req c4st = (.destroyed, c4st) :=
  C4_session_mismatch_preserves_token c4v c4req c4st (str "b")
    { sub := str "u", sid := str "a", aud := str "ws", jti := str "ja" }
    (by decide) (by decide) (by decide)

/-- Verifier fixture mirroring the gateway's own test: token `T` bound to
session `s1` with jti `j1`. -/
def c7v : Str → Option Claims := fun t =>
  if t == str "T" then
    some { sub := str "u", sid := str "s1", aud := str "ws", jti := str "j1" }
  else none

/-- The gateway test's request shape: token sent only via the
`Sec-WebSocket-Protocol: bearer,<token>` header, no `?token=` parameter. -/
def c7req : WsRequest :=
  { pathname := str "/ws/s1", sec_websocket_protocol := some (str "bearer,T") }

/-- Store in the state the gateway test prepares: the session row with a pod
ip and the token's jti row both present. -/
def c7st : Store :=
  { sessions := [{ session_id := str "s1", owner_user_id := str "u",
                   job_name := str "w1", pod_ip := some (str "10.0.0.5") }],
    token_jti := [{ jti := str "j1", session_id := str "s1" }] }

/-- C7 (code bug): the header scan
`proto.split(',').map(trim).find(s=>s.startsWith('bearer,'))` can never find
anything — splitting on `','` leaves no piece containing a comma, so no piece
can start with `"bearer,"`.  Hence the Gateway always falls back to the
`?token=` query parameter: with header `bearer,T` and query `Q` it extracts
`Q`, and with the header alone (the gateway's own test fixture, which the
test expects to succeed) the upgrade is destroyed. -/
theorem C7_header_token_never_extracted :
    (∀ proto : Str, findBearerPiece proto = none)
    ∧ extractToken (some (str "bearer,T")) (some (str "Q")) = str "Q"
    ∧ gatewayUpgrade c7v c7req c7st = (.destroyed, c7st) :=
  ⟨findBearerPiece_eq_none, by decide, by decide⟩

/-- C10: the upgrade path match accepts any non-empty remainder after `/ws/`
without the 36-character `[a-f0-9-]` shape check; that shape is enforced only
by the non-upgrade GET page route; and past path matching, for a fixed
extracted-and-verified token the upgrade is gated solely by exact string
equality between the remainder and the token's `sid` claim. -/
theorem C10_upgrade_path_no_shape_check (r : Str) (hne : r ≠ [])
    (hchars : r.all jsDotChar = true) :
    matchWsPath (str "/ws/" ++ r) = some r
    ∧ pageRouteMatch (str "/ws/" ++ r) = (if isUuidShaped r = true then some r else none)
    ∧ (∀ (v : Str → Option Claims) (req : WsRequest) (st : Store) (claims : Claims),
        req.pathname = str "/ws/" ++ r →
        v (extractToken req.sec_websocket_protocol req.query_token) = some claims →
        extractToken req.sec_websocket_protocol req.query_token ≠ [] →
        gatewayUpgrade v req st =
          if claims.sid = r then attachConsumeAndRoute claims r st
          else (.destroyed, st)) := by
  have hpre : (str "/ws/").isPrefixOf (str "/ws/" ++ r) = true :=
    List.isPrefixOf_iff_prefix.mpr (List.prefix_append _ _)
  have hdrop : (str "/ws/" ++ r).drop 4 = r := by
    have h4 : (str "/ws/").length = 4 := by decide
    rw [← h4, List.drop_left]
  have hmatch : matchWsPath (str "/ws/" ++ r) = some r := by
    unfold matchWsPath
    rw [if_pos hpre]
    dsimp only
    rw [hdrop, if_pos ⟨hne, hchars⟩]
  refine ⟨hmatch, ?_, ?_⟩
  · unfold pageRouteMatch
    rw [hdrop]
    by_cases hu : isUuidShaped r = true
    · rw [if_pos ⟨hpre, hu⟩, if_pos hu]
    · rw [if_neg (fun hc => hu hc.2), if_neg hu]
  · intro v req st claims hpath hver htok
    unfold gatewayUpgrade
    dsimp only
    rw [hpath, hmatch]
    dsimp only
    rw [if_neg htok, hver]
    dsimp only
    by_cases hsid : claims.sid = r
    · rw [if_neg (fun hc => hc hsid), if_pos hsid]
    · rw [if_pos hsid, if_neg hsid]

/-- Witness for C10 at the non-UUID-shaped remainder `abc`: the upgrade path
accepts it, the page route rejects it, and the sid-equality gate decides the
outcome. -/
theorem C10_witness :
    matchWsPath (str "/ws/" ++ str "abc") = some (str "abc")
    ∧ pageRouteMatch (str "/ws/" ++ str "abc")
        = (if isUuidShaped (str "abc") = true then some (str "abc") else none)
    ∧ (∀ (v : Str → Option Claims) (req : WsRequest) (st : Store) (claims : Claims),
        req.pathname = str "/ws/" ++ str "abc" →
        v (extractToken req.sec_websocket_protocol req.query_token) = some claims →
        extractToken req.sec_websocket_protocol req.query_token ≠ [] →
        gatewayUpgrade v req st =
          if claims.sid = str "abc" then attachConsumeAndRoute claims (str "abc") st
          else (.destroyed, st)) :=
  C10_upgrade_path_no_shape_check (str "abc") (by decide) (by decide)

/-- C3: whenever `createSession` responds with success, the returned
`sessionId` is the fresh id and is distinct from every previously stored
session id, a job named `"wscli-" + sessionId.slice(0,13)` has been submitted
to the orchestrator, the Session row for it exists with a non-null (and
non-empty) `podIp`, and a `token_jti` row for the minted token's jti exists —
success is never returned without all of these. -/
theorem C3_createSession_success (env : CsEnv) (req : CreateReq) (w : World)
    (sid url : Str) (tok : Claims) (w' : World)
    (h : createSession env req w = (.ok sid url tok, w')) :
    sid = env.freshSessionId
    ∧ (∀ r ∈ w.store.sessions, r.session_id ≠ sid)
    ∧ (∃ jb ∈ w'.jobs, jb.name = str "wscli-" ++ sid.take 13)
    ∧ (∃ r ∈ w'.store.sessions, r.session_id = sid ∧ ∃ ip, r.pod_ip = some ip ∧ ip ≠ [])
    ∧ (∃ tr ∈ w'.store.token_jti, tr.jti = tok.jti ∧ tr.session_id = sid) := by
  unfold createSession at h
  dsimp only at h
  split at h
  · simp at h
  split at h
  · simp at h
  split at h
  · simp at h
  split at h
  · simp at h
  split at h
  · simp at h
  split at h
  · simp at h
  next st1 hins =>
    split at h
    · simp at h
    next pod k hpoll =>
      split at h
      · simp at h
      next st4 hjti =>
        simp only [Prod.mk.injEq, CsResult.ok.injEq] at h
        obtain ⟨⟨hsid, hurl, htok⟩, hw'⟩ := h
        subst hsid
        subst hurl
        subst htok
        subst hw'
        obtain ⟨hst1, huniq⟩ := insertSession_eq hins
        have hst4 := insertJti_eq hjti
        obtain ⟨ip, hip, hipne⟩ := jsTruthy_some (pollForPod_truthy _ _ _ _ hpoll)
        refine ⟨rfl, ?_, ?_, ?_, ?_⟩
        · intro r hr
          exact huniq r hr
        · exact ⟨_, List.mem_append_right _ (List.mem_singleton.mpr rfl), rfl⟩
        · rw [hst4]
          dsimp only
          rw [hst1]
          unfold updateSessionPod
          dsimp only
          refine ⟨_, List.mem_map_of_mem _
            (List.mem_append_right _ (List.mem_singleton.mpr rfl)), ?_, ?_⟩
          · simp
          · exact ⟨ip, by simp [hip], hipne⟩
        · rw [hst4]
          dsimp only
          exact ⟨_, List.mem_append_right _ (List.mem_singleton.mpr rfl), rfl, rfl⟩

/-- Happy-path environment for the createSession witnesses: an allowlisted
URL, a pod that reports its ip in the first observation. -/
def c3env : CsEnv :=
  { parseUrl := fun _ => some { protocol := str "https:", hostname := str "github.com" },
    allowedDomains := [str "github.com"],
    clientId := str "u1", freshSessionId := str "s1", freshJti := str "j1",
    polls := [[{ name := some (str "p1"), podIP := some (str "10.0.0.5") }]],
    expSec := 600, t0 := 1000 }

/-- Happy-path request for the createSession witnesses. -/
def c3req : CreateReq := { code_url := some (str "https://github.com/x/y.git") }

/-- The token the happy-path run mints. -/
def c3tok : Claims :=
  { sub := str "u1", sid := str "s1", aud := str "ws", jti := str "j1",
    iat := 1000, exp := 1600 }

/-- The world the happy-path run leaves behind. -/
def c3w : World :=
  { store :=
      { sessions := [{ session_id := str "s1", owner_user_id := str "u1",
                       job_name := str "wscli-s1", pod_name := some (str "p1"),
                       pod_ip := some (str "10.0.0.5"), expires_at := 1600 }],
        token_jti := [{ jti := str "j1", session_id := str "s1", expires_at := 1600 }] },
    jobs := [{ name := str "wscli-s1", sessionLabel := str "s1",
               code_url := str "https://github.com/x/y.git",
               command := defaultCommand }] }

/-- Witness for C3 at the concrete happy-path run. -/
theorem C3_witness :
    str "s1" = c3env.freshSessionId
    ∧ (∀ r ∈ ({} : World).store.sessions, r.session_id ≠ str "s1")
    ∧ (∃ jb ∈ c3w.jobs, jb.name = str "wscli-" ++ (str "s1").take 13)
    ∧ (∃ r ∈ c3w.store.sessions, r.session_id = str "s1" ∧ ∃ ip, r.pod_ip = some ip ∧ ip ≠ [])
    ∧ (∃ tr ∈ c3w.store.token_jti, tr.jti = c3tok.jti ∧ tr.session_id = str "s1") :=
  C3_createSession_success c3env c3req {} (str "s1") (str "/ws/s1") c3tok c3w (by decide)

theorem validateCodeUrl_private {parseUrl : Str → Option UrlParts} (allowed : List Str)
    {u : Str} {parts : UrlParts}
    (hp : parseUrl u = some parts) (hpriv : isPrivateIP parts.hostname = true) :
    ∃ e, validateCodeUrl parseUrl allowed (some u) = .invalid e := by
  unfold validateCodeUrl
  dsimp only
  split
  · exact ⟨_, rfl⟩
  · rw [hp]
    dsimp only
    by_cases hproto : (!(parts.protocol == str "http:" || parts.protocol == str "https:")) = true
    · rw [if_pos hproto]
      exact ⟨_, rfl⟩
    · rw [if_neg hproto, if_pos hpriv]
      exact ⟨_, rfl⟩

theorem validateCommand_dangerous {cmd : Str} (h : containsDangerous cmd = true) :
    ∃ e, validateCommand cmd = .invalid e := by
  unfold validateCommand
  split
  · exact ⟨_, rfl⟩
  · split
    · exact ⟨_, rfl⟩
    · exact ⟨_, rfl⟩

/-- C5: a `createSession` request whose `code_url` parses to a private,
loopback or link-local hostname, or whose effective command contains a
command-substitution pattern (`$(`, backtick, `$` + brace, `<(`, `>(`),
is rejected with a Validation error (HTTP 400) and the world is left
untouched: no session row is inserted and no orchestrator job is created. -/
theorem C5_admission_blocks (env : CsEnv) (req : CreateReq) (w : World)
    (h : (∃ u parts, req.code_url = some u ∧ env.parseUrl u = some parts ∧
            isPrivateIP parts.hostname = true)
         ∨ containsDangerous (jsOrStr req.command defaultCommand) = true) :
    ∃ e, createSession env req w = (.badRequest e, w) := by
  unfold createSession
  dsimp only
  cases hv : validateCodeUrl env.parseUrl env.allowedDomains req.code_url with
  | invalid e0 => exact ⟨e0, rfl⟩
  | ok =>
    dsimp only
    rcases h with ⟨u, parts, hu, hp, hpriv⟩ | hcmd
    · exfalso
      obtain ⟨e, he⟩ := validateCodeUrl_private env.allowedDomains hp hpriv
      rw [hu, he] at hv
      cases hv
    · cases hc : validateChecksum req.code_checksum_sha256 with
      | invalid e0 => exact ⟨e0, rfl⟩
      | ok =>
        dsimp only
        obtain ⟨e, he⟩ := validateCommand_dangerous hcmd
        rw [he]
        exact ⟨e, rfl⟩

/-- Environment for the SSRF-block witness: the URL parser resolves the
metadata-service URL to hostname `169.254.169.254`. -/
def c5env : CsEnv :=
  { parseUrl := fun _ => some { protocol := str "http:", hostname := str "169.254.169.254" },
    allowedDomains := [str "github.com"],
    clientId := str "u1", freshSessionId := str "s1", freshJti := str "j1",
    polls := [], expSec := 600, t0 := 1000 }

/-- The S4 scenario request `codeUrl: "http://169.254.169.254/meta"`. -/
def c5req : CreateReq := { code_url := some (str "http://169.254.169.254/meta") }

/-- Witness for C5: the metadata-service request is rejected with 400 and the
empty world is unchanged. -/
theorem C5_witness : ∃ e, createSession c5env c5req {} = (.badRequest e, {}) :=
  C5_admission_blocks c5env c5req {}
    (Or.inl ⟨str "http://169.254.169.254/meta",
      { protocol := str "http:", hostname := str "169.254.169.254" },
      rfl, rfl, by decide⟩)

/-- Environment whose pod reports its ip only in the second observation, so
the mint-time clock lags the handler-entry clock by one polling second. -/
def c6env : CsEnv :=
  { parseUrl := fun _ => some { protocol := str "https:", hostname := str "github.com" },
    allowedDomains := [str "github.com"],
    clientId := str "u1", freshSessionId := str "s1", freshJti := str "j1",
    polls := [[], [{ name := some (str "p1"), podIP := some (str "10.0.0.5") }]],
    expSec := 600, t0 := 1000 }

/-- Valid request for the expiry counterexample. -/
def c6req : CreateReq := { code_url := some (str "https://github.com/x/y.git") }

/-- The token the delayed-discovery run mints: issued at 1001, expiring 1601. -/
def c6tok : Claims :=
  { sub := str "u1", sid := str "s1", aud := str "ws", jti := str "j1",
    iat := 1001, exp := 1601 }

/-- C6 counterexample: a successful `createSession` run in which the
`token_jti` row is inserted with `expires_at = 1600` (handler-start time plus
`sessionExpirySeconds`, computed before pod polling) while the minted token's
`exp` claim is 1601 (mint time plus `sessionExpirySeconds`, computed after a
one-second polling delay) — so the row's expiry is not equal to `claims.exp`. -/
theorem C6_counterexample :
    (createSession c6env c6req {}).1 = .ok (str "s1") (str "/ws/" ++ str "s1") c6tok
    ∧ ((createSession c6env c6req {}).2.store.token_jti.map (fun r => r.expires_at)) = [1600]
    ∧ c6tok.exp = 1601 := by decide

/-- C6 (amended): on every successful `createSession`, the minted claims
carry `exp = iat + sessionExpirySeconds` where `iat` is the mint-time clock
(handler entry plus the pod-polling delay), while the `token_jti` row is
inserted with `expiresAt` equal to handler-entry time plus
`sessionExpirySeconds`; the row therefore never expires later than the token,
and the two coincide exactly when discovery takes no polling delay. -/
theorem C6_expiry_amended (env : CsEnv) (req : CreateReq) (w : World)
    (sid url : Str) (tok : Claims) (w' : World)
    (h : createSession env req w = (.ok sid url tok, w')) :
    tok.exp = tok.iat + env.expSec
    ∧ env.t0 ≤ tok.iat
    ∧ (∃ tr ∈ w'.store.token_jti, tr.jti = tok.jti ∧ tr.expires_at = env.t0 + env.expSec)
    ∧ env.t0 + env.expSec ≤ tok.exp := by
  unfold createSession at h
  dsimp only at h
  split at h
  · simp at h
  split at h
  · simp at h
  split at h
  · simp at h
  split at h
  · simp at h
  split at h
  · simp at h
  split at h
  · simp at h
  next st1 hins =>
    split at h
    · simp at h
    next pod k hpoll =>
      split at h
      · simp at h
      next st4 hjti =>
        simp only [Prod.mk.injEq, CsResult.ok.injEq] at h
        obtain ⟨⟨hsid, hurl, htok⟩, hw'⟩ := h
        subst hsid
        subst hurl
        subst htok
        subst hw'
        have hst4 := insertJti_eq hjti
        refine ⟨rfl, Nat.le_add_right _ _, ?_, ?_⟩
        · rw [hst4]
          dsimp only
          exact ⟨_, List.mem_append_right _ (List.mem_singleton.mpr rfl), rfl, rfl⟩
        · show env.t0 + env.expSec ≤ env.t0 + k + env.expSec
          omega

/-- The world the delayed-discovery run leaves behind. -/
def c6w : World :=
  { store :=
      { sessions := [{ session_id := str "s1", owner_user_id := str "u1",
                       job_name := str "wscli-s1", pod_name := some (str "p1"),
                       pod_ip := some (str "10.0.0.5"), expires_at := 1600 }],
        token_jti := [{ jti := str "j1", session_id := str "s1", expires_at := 1600 }] },
    jobs := [{ name := str "wscli-s1", sessionLabel := str "s1",
               code_url := str "https://github.com/x/y.git",
               command := defaultCommand }] }

/-- Witness for the amended C6 at the delayed-discovery run. -/
theorem C6_witness :
    c6tok.exp = c6tok.iat + c6env.expSec
    ∧ c6env.t0 ≤ c6tok.iat
    ∧ (∃ tr ∈ c6w.store.token_jti, tr.jti = c6tok.jti ∧ tr.expires_at = c6env.t0 + c6env.expSec)
    ∧ c6env.t0 + c6env.expSec ≤ c6tok.exp :=
  C6_expiry_amended c6env c6req {} (str "s1") (str "/ws/s1") c6tok c6w (by decide)

/-- Lexicographic comparison of two character lists. -/
def lexLt : Str → Str → Bool
  | [], [] => false
  | [], _ :: _ => true
  | _ :: _, [] => false
  | a :: as, b :: bs => if a < b then true else if b < a then false else lexLt as bs

/-- An observation in which two pods report ips and the lexicographically
smaller pod name comes second in the list order. -/
def c8pods : List Pod :=
  [{ name := some (str "pod-b"), podIP := some (str "2.2.2.2") },
   { name := some (str "pod-a"), podIP := some (str "1.1.1.1") }]

/-- Environment whose single pod observation is `c8pods`. -/
def c8env : CsEnv :=
  { parseUrl := fun _ => some { protocol := str "https:", hostname := str "github.com" },
    allowedDomains := [str "github.com"],
    clientId := str "u1", freshSessionId := str "s1", freshJti := str "j1",
    polls := [c8pods], expSec := 600, t0 := 1000 }

/-- Valid request for the tie-break counterexample. -/
def c8req : CreateReq := { code_url := some (str "https://github.com/x/y.git") }

/-- True iff the response is a success. -/
def isOkResult : CsResult → Bool
  | .ok _ _ _ => true
  | _ => false

/-- C8 counterexample: with both `pod-b` and `pod-a` reporting non-empty ips
in one observation, the successful run records `pod-b` — the first pod in the
list order returned by the list call — although `pod-a` is lexicographically
first, so the Controller does not apply a lexicographic tie-break. -/
theorem C8_counterexample :
    isOkResult (createSession c8env c8req {}).1 = true
    ∧ (∃ r ∈ (createSession c8env c8req {}).2.store.sessions,
        r.session_id = str "s1" ∧ r.pod_name = some (str "pod-b"))
    ∧ (∃ p ∈ c8pods, p.name = some (str "pod-a") ∧ jsTruthy p.podIP = true)
    ∧ lexLt (str "pod-a") (str "pod-b") = true := by decide

/-- C8 (amended): on every successful `createSession`, the accepted pod is
the one `pollForPod` selects — the first pod, in the order the list call
returned, whose `podIP` is truthy — and that pod's `podIp` and `podName` are
recorded in the Session row keyed on the returned `sessionId`. -/
theorem C8_first_reporting_pod (env : CsEnv) (req : CreateReq) (w : World)
    (sid url : Str) (tok : Claims) (w' : World)
    (h : createSession env req w = (.ok sid url tok, w')) :
    ∃ p k, pollForPod env.polls 30 = some (p, k)
      ∧ ∃ r ∈ w'.store.sessions, r.session_id = sid ∧ r.pod_ip = p.podIP ∧ r.pod_name = p.name := by
  unfold createSession at h
  dsimp only at h
  split at h
  · simp at h
  split at h
  · simp at h
  split at h
  · simp at h
  split at h
  · simp at h
  split at h
  · simp at h
  split at h
  · simp at h
  next st1 hins =>
    split at h
    · simp at h
    next pod k hpoll =>
      split at h
      · simp at h
      next st4 hjti =>
        simp only [Prod.mk.injEq, CsResult.ok.injEq] at h
        obtain ⟨⟨hsid, hurl, htok⟩, hw'⟩ := h
        subst hsid
        subst hurl
        subst htok
        subst hw'
        obtain ⟨hst1, _⟩ := insertSession_eq hins
        have hst4 := insertJti_eq hjti
        refine ⟨pod, k, hpoll, ?_⟩
        rw [hst4]
        dsimp only
        rw [hst1]
        unfold updateSessionPod
        dsimp only
        refine ⟨_, List.mem_map_of_mem _
          (List.mem_append_right _ (List.mem_singleton.mpr rfl)), ?_, ?_, ?_⟩ <;> simp

/-- The world the tie-break run leaves behind: `pod-b` recorded. -/
def c8w : World :=
  { store :=
      { sessions := [{ session_id := str "s1", owner_user_id := str "u1",
                       job_name := str "wscli-s1", pod_name := some (str "pod-b"),
                       pod_ip := some (str "2.2.2.2"), expires_at := 1600 }],
        token_jti := [{ jti := str "j1", session_id := str "s1", expires_at := 1600 }] },
    jobs := [{ name := str "wscli-s1", sessionLabel := str "s1",
               code_url := str "https://github.com/x/y.git",
               command := defaultCommand }] }

/-- The token the tie-break run mints. -/
def c8tok : Claims :=
  { sub := str "u1", sid := str "s1", aud := str "ws", jti := str "j1",
    iat := 1000, exp := 1600 }

/-- Witness for the amended C8 at the concrete two-pod run. -/
theorem C8_witness :
    ∃ p k, pollForPod c8env.polls 30 = some (p, k)
      ∧ ∃ r ∈ c8w.store.sessions, r.session_id = str "s1"
          ∧ r.pod_ip = p.podIP ∧ r.pod_name = p.name :=
  C8_first_reporting_pod c8env c8req {} (str "s1") (str "/ws/s1") c8tok c8w (by decide)

theorem find?_map_pres {α : Type} (f : α → α) (p : α → Bool) (h : ∀ x, p (f x) = p x)
    (l : List α) : (l.map f).find? p = (l.find? p).map f := by
  induction l with
  | nil => rfl
  | cons c cs ih =>
    simp only [List.map_cons, List.find?_cons, h]
    cases hp : p c <;> simp [hp, ih]

theorem selectPodIp_congr {st st' : Store} (h : st.sessions = st'.sessions) (s : Str) :
    selectPodIp s st = selectPodIp s st' := by
  unfold selectPodIp
  rw [h]

theorem selectPodIp_append {s : Str} {st : Store} {row : SessionRow} {v : Option Str}
    (h : selectPodIp s st = some v) :
    selectPodIp s { st with sessions := st.sessions ++ [row] } = some v := by
  unfold selectPodIp at h ⊢
  dsimp only
  cases hf : st.sessions.find? (fun r => r.session_id == s) with
  | none => rw [hf] at h; cases h
  | some r =>
    rw [hf] at h
    rw [List.find?_append, hf]
    simpa using h

theorem selectPodIp_update_ne {s sid : Str} (hne : s ≠ sid) (ip nm : Option Str) (st : Store) :
    selectPodIp s (updateSessionPod sid ip nm st) = selectPodIp s st := by
  unfold selectPodIp updateSessionPod
  dsimp only
  rw [find?_map_pres _ _ (fun x => by
    by_cases hx : (x.session_id == sid) = true <;> simp [hx])]
  cases hf : st.sessions.find? (fun r => r.session_id == s) with
  | none => rfl
  | some r =>
    have hr := List.find?_some hf
    simp only [beq_iff_eq] at hr
    have hne2 : r.session_id ≠ sid := by
      rw [hr]
      exact hne
    simp [hne2]

theorem createSession_preserves_podIp (env : CsEnv) (req : CreateReq) (w : World)
    {s : Str} {ipv : Str}
    (h : selectPodIp s w.store = some (some ipv)) :
    selectPodIp s ((createSession env req w).2).store = some (some ipv) := by
  unfold createSession
  dsimp only
  split
  · exact h
  split
  · exact h
  split
  · exact h
  split
  · exact h
  split
  · exact h
  split
  · exact h
  next st1 hins =>
    obtain ⟨hst1, huniq⟩ := insertSession_eq hins
    have hs_ne : s ≠ env.freshSessionId := by
      intro hcontra
      unfold selectPodIp at h
      cases hf : w.store.sessions.find? (fun r => r.session_id == s) with
      | none => rw [hf] at h; cases h
      | some r =>
        have hrmem := List.mem_of_find?_eq_some hf
        have hrs := List.find?_some hf
        simp only [beq_iff_eq] at hrs
        exact huniq r hrmem (by rw [hrs, hcontra])
    have hsel1 : selectPodIp s st1 = some (some ipv) := by
      rw [hst1]
      exact selectPodIp_append h
    split
    · exact hsel1
    next pod k hpoll =>
      have hupd : selectPodIp s
          (updateSessionPod env.freshSessionId pod.podIP pod.name st1) = some (some ipv) := by
        rw [selectPodIp_update_ne hs_ne]
        exact hsel1
      split
      · exact hupd
      next st4 hjti =>
        have hst4 := insertJti_eq hjti
        rw [hst4]
        exact hupd

theorem gateway_preserves_podIp (v : Str → Option Claims) (r : WsRequest)
    (st : Store) (s : Str) :
    selectPodIp s ((gatewayUpgrade v r st).2) = selectPodIp s st :=
  selectPodIp_congr (gatewayUpgrade_sessions v r st) s

/-- C9: once a session row's `pod_ip` is set, no further core request — any
sequence of Controller `createSession` runs and Gateway upgrade attempts —
ever clears or changes it, so reading the session after discovery always
returns the same `podIp`.  (`createSession` writes `pod_ip` only for its own
freshly inserted session id, and the Gateway only reads the table.) -/
theorem C9_podIp_monotone (steps : List SysStep) (w : World) (s : Str) (ipv : Str)
    (h : selectPodIp s w.store = some (some ipv)) :
    selectPodIp s (applySteps steps w).store = some (some ipv) := by
  induction steps generalizing w with
  | nil => exact h
  | cons stp rest ih =>
    rw [applySteps, List.foldl_cons]
    refine ih _ ?_
    cases stp with
    | create env req => exact createSession_preserves_podIp env req w h
    | attach vv rr =>
      show selectPodIp s ((gatewayUpgrade vv rr w.store).2) = some (some ipv)
      rw [gateway_preserves_podIp]
      exact h

/-- Verifier fixture for the C9 witness. -/
def c9v : Str → Option Claims := fun t =>
  if t == str "T9" then
    some { sub := str "u", sid := str "s1", aud := str "ws", jti := str "j9" }
  else none

/-- World whose session row already has its `pod_ip` set and whose token is
still unconsumed. -/
def c9w : World :=
  { store :=
      { sessions := [{ session_id := str "s1", owner_user_id := str "u",
                       job_name := str "w1", pod_name := some (str "p1"),
                       pod_ip := some (str "10.0.0.5"), expires_at := 1600 }],
        token_jti := [{ jti := str "j9", session_id := str "s1" }] } }

/-- A step sequence containing a successful attach, which consumes the token
row but must leave `pod_ip` untouched. -/
def c9steps : List SysStep :=
  [.attach c9v { pathname := str "/ws/s1", query_token := some (str "T9") }]

/-- Witness for C9: after the attach step the session still reads the same
`pod_ip`. -/
theorem C9_witness :
    selectPodIp (str "s1") (applySteps c9steps c9w).store = some (some (str "10.0.0.5")) :=
  C9_podIp_monotone c9steps c9w (str "s1") (str "10.0.0.5") (by decide)

end KsCli
